import Mathlib

/-!
Shallow embedding of `src/tools/lighthouse.ts` (the `lighthouse_audit` MCP
tool) and proofs about its behaviour.

Modelling conventions:
* JavaScript strings are Lean `String`s; the JS operations `split`,
  `startsWith` and `parseInt` used by the handler are re-implemented
  structurally over the underlying character lists so that every definition
  is executable by the kernel.
* `Date.now()` and `process.cwd()` are ambient process state; they are
  passed to the handler as explicit `now : Nat` (epoch milliseconds) and
  `cwd : String` arguments.
* The external audit engine (`playAudit` from `playwright-lighthouse`) is
  a collaborator, not part of this repository; the handler receives it as
  a function argument `engine : EngineCall → AuditOutcome`. The `EngineCall`
  structure mirrors the argument object the source passes to `playAudit`
  (minus the opaque `page` handle). `EngineCall.port = none` models the
  JavaScript `NaN` produced by `parseInt` on a non-numeric string.
* The zod schema `lighthouseAuditSchema` is modelled field by field:
  enumerated strings are parsed to inductive types, an invalid element
  anywhere makes the whole parse fail, absent fields take the declared
  defaults, and `thresholds` (a `z.record(z.string(), z.number())`) is a
  list of string/rational pairs that is *not* range-checked, exactly as in
  the source.
* `fs.mkdir` is an external filesystem effect with no influence on the
  returned value and is not modelled.
-/

/-! ## JavaScript string primitives -/

/-- Splitting a character list at every occurrence of `sep`, in the manner
of JavaScript `String.prototype.split`: `"a=b=c" ↦ ["a","b","c"]`,
`"a=" ↦ ["a",""]`, `"" ↦ [""]`. -/
def splitChars (sep : Char) : List Char → List (List Char)
  | [] => [[]]
  | c :: rest =>
    match splitChars sep rest with
    | [] => if c = sep then [[], []] else [[c]]
    | h :: t => if c = sep then [] :: h :: t else (c :: h) :: t

/-- JavaScript `s.split(sep)` for a one-character separator. -/
def jsSplit (s : String) (sep : Char) : List String :=
  (splitChars sep s.data).map String.mk

/-- JavaScript `s.startsWith(pre)`. -/
def jsStartsWith (s pre : String) : Bool :=
  pre.data.isPrefixOf s.data

/-- JavaScript `parseInt(s, 10)`: skip leading whitespace, read an optional
sign, then the longest run of leading decimal digits; the result is `none`
(modelling `NaN`) when no digit is found. -/
def parseIntJS (s : String) : Option Int :=
  let cs := s.data.dropWhile Char.isWhitespace
  let signAndDigits : Int × List Char :=
    match cs with
    | '-' :: rest => (-1, rest)
    | '+' :: rest => (1, rest)
    | _ => (1, cs)
  let digits := signAndDigits.2.takeWhile Char.isDigit
  if digits.isEmpty then none
  else some (signAndDigits.1 * (digits.foldl (fun a c => a * 10 + (c.toNat - 48)) 0 : Nat))

/-- Node `path.join(a, b)` for the simple segment arguments the tool uses
(no trailing separators, no `..` components). -/
def pathJoin (a b : String) : String :=
  a ++ "/" ++ b

/-! ## Parameter schema (`lighthouseAuditSchema`) -/

/-- The audit-category enumeration of the zod schema. -/
inductive Category
  | performance
  | accessibility
  | seo
  | bestPractices
  | pwa
deriving DecidableEq, Repr

/-- The `formFactor` enumeration. -/
inductive FormFactor
  | desktop
  | mobile
deriving DecidableEq, Repr

/-- The `output` enumeration. -/
inductive OutputFormat
  | html
  | json
deriving DecidableEq, Repr

/-- The `thresholds` record: category name to numeric minimum score.
The zod schema constrains the values only to be numbers. -/
abbrev ThresholdMap := List (String × ℚ)

/-- A caller-supplied input value as seen by `lighthouseAuditSchema.parse`:
each field either absent (`none`) or a raw value whose enumerated strings
are still unvalidated. -/
structure RawInput where
  categories : Option (List String)
  formFactor : Option String
  output : Option String
  thresholds : Option ThresholdMap
deriving DecidableEq, Repr

/-- A validated, fully-defaulted audit request (the result of
`lighthouseAuditSchema.parse`). -/
structure AuditRequest where
  categories : List Category
  formFactor : FormFactor
  output : OutputFormat
  thresholds : Option ThresholdMap
deriving DecidableEq, Repr

/-- `z.enum(['performance','accessibility','seo','best-practices','pwa'])`
on one element. -/
def parseCategory : String → Option Category
  | "performance" => some Category.performance
  | "accessibility" => some Category.accessibility
  | "seo" => some Category.seo
  | "best-practices" => some Category.bestPractices
  | "pwa" => some Category.pwa
  | _ => none

/-- `z.array(categoryEnum)`: every element must parse. -/
def parseCategories : List String → Option (List Category)
  | [] => some []
  | s :: rest =>
    match parseCategory s, parseCategories rest with
    | some c, some cs => some (c :: cs)
    | _, _ => none

/-- `z.enum(['desktop','mobile'])`. -/
def parseFormFactor : String → Option FormFactor
  | "desktop" => some FormFactor.desktop
  | "mobile" => some FormFactor.mobile
  | _ => none

/-- `z.enum(['html','json'])`. -/
def parseOutputFormat : String → Option OutputFormat
  | "html" => some OutputFormat.html
  | "json" => some OutputFormat.json
  | _ => none

/-- The `categories` field with its `.default(['accessibility'])`. -/
def parseCategoriesField : Option (List String) → Option (List Category)
  | none => some [Category.accessibility]
  | some ss => parseCategories ss

/-- The `formFactor` field with its `.default('desktop')`. -/
def parseFormFactorField : Option String → Option FormFactor
  | none => some FormFactor.desktop
  | some s => parseFormFactor s

/-- The `output` field with its `.default('html')`. -/
def parseOutputField : Option String → Option OutputFormat
  | none => some OutputFormat.html
  | some s => parseOutputFormat s

/-- `lighthouseAuditSchema.parse(params)`: validate every field, apply the
declared defaults, and pass `thresholds` through untouched. `none` models a
thrown `ZodError`. -/
def parseParams (raw : RawInput) : Option AuditRequest := do
  let cats ← parseCategoriesField raw.categories
  let ff ← parseFormFactorField raw.formFactor
  let out ← parseOutputField raw.output
  some { categories := cats, formFactor := ff, output := out, thresholds := raw.thresholds }

/-! ## Handler -/

/-- The flag prefix searched for among the browser launch arguments. -/
def remoteDebugFlag : String := "--remote-debugging-port="

/-- The configuration-error message thrown when no usable port value is
found (the source concatenates two string literals). -/
def portErrorMessage : String :=
  "The Playwright browser was not launched with --remote-debugging-port=<n>. " ++
    "Restart the MCP server with that flag so Lighthouse can attach."

/-- `context.options.launchOptions?.args?.find(arg =>
arg.startsWith('--remote-debugging-port='))?.split('=')[1]` — the resolved
port string, `none` when `launchOptions`/`args` is absent, no argument
matches, or the matching argument has no second `split` component. -/
def resolvePort (launchArgs : Option (List String)) : Option String :=
  match launchArgs with
  | none => none
  | some args =>
    match args.find? (fun a => jsStartsWith a remoteDebugFlag) with
    | none => none
    | some a => (jsSplit a '=').get? 1

/-- The errors the handler can raise before reaching the audit engine. -/
inductive HandlerError
  | validationError
  | configurationError (msg : String)
deriving DecidableEq, Repr

/-- The argument object the source passes to `playAudit` (minus the opaque
`page` handle). `port = none` models `parseInt` returning `NaN`. -/
structure EngineCall where
  port : Option Int
  thresholds : Option ThresholdMap
  logLevel : String
  formatsHtml : Bool
  formatsJson : Bool
  reportName : String
  reportDirectory : String
deriving DecidableEq, Repr

/-- One category record inside the engine result `result.lhr.categories`. -/
structure CategoryResult where
  score : ℚ
deriving DecidableEq, Repr

/-- The engine result consumed by the handler: `result.lhr.categories` as
an association list (a JS object, so keys are distinct in practice). -/
structure AuditOutcome where
  categories : List (String × CategoryResult)
deriving DecidableEq, Repr

/-- One entry of the response's `files` array. -/
structure FileDescriptor where
  path : String
  mediaType : String
deriving DecidableEq, Repr

/-- The `data` member of the response. -/
structure ResponseData where
  scores : List (String × ℚ)
deriving DecidableEq, Repr

/-- The MCP response value built by the handler. -/
structure AuditResponse where
  code : List String
  files : List FileDescriptor
  captureSnapshot : Bool
  waitForNetwork : Bool
  data : ResponseData
deriving DecidableEq, Repr

/-- `lighthouse-${Date.now()}` — the base filename of the report files. -/
def reportFileBase (now : Nat) : String :=
  "lighthouse-" ++ toString now

/-- Everything the handler does before calling `playAudit`: parameter
validation, port resolution (with the `!port` falsiness check covering both
`undefined` and the empty string), and assembly of the `playAudit` argument
object. On success it returns the resolved port string together with the
`EngineCall`; an error here means the audit engine is never invoked. -/
def prepareAudit (params : RawInput) (launchArgs : Option (List String))
    (now : Nat) (cwd : String) : Except HandlerError (String × EngineCall) :=
  match parseParams params with
  | none => .error .validationError
  | some opts =>
    match resolvePort launchArgs with
    | none => .error (.configurationError portErrorMessage)
    | some port =>
      if port = "" then .error (.configurationError portErrorMessage)
      else
        .ok (port,
          { port := parseIntJS port
            thresholds := opts.thresholds
            logLevel := "error"
            formatsHtml := opts.output == OutputFormat.html
            formatsJson := opts.output == OutputFormat.json
            reportName := reportFileBase now
            reportDirectory := pathJoin cwd "lighthouse-reports" })

/-- The tool handler: validate, resolve the port, run the engine, and build
the response (`code` trace, generated-file descriptors in html-then-json
order, pass-through flags, and `data.scores` mapped from the engine's
category records). -/
def handle (captureSnapshot : Bool) (params : RawInput)
    (launchArgs : Option (List String)) (now : Nat) (cwd : String)
    (engine : EngineCall → AuditOutcome) : Except HandlerError AuditResponse :=
  match prepareAudit params launchArgs now cwd with
  | .error e => .error e
  | .ok (port, call) =>
    let result := engine call
    let generatedFiles :=
      (if call.formatsHtml then
        [{ path := pathJoin call.reportDirectory (call.reportName ++ ".html")
           mediaType := "text/html" : FileDescriptor }]
       else []) ++
      (if call.formatsJson then
        [{ path := pathJoin call.reportDirectory (call.reportName ++ ".json")
           mediaType := "application/json" : FileDescriptor }]
       else [])
    .ok
      { code := ["// Lighthouse audit via playwright-lighthouse",
                 "await playAudit(\x7b page, port: " ++ port ++ ", /* ... */ \x7d);"]
        files := generatedFiles
        captureSnapshot := captureSnapshot
        waitForNetwork := false
        data := { scores := result.categories.map fun kv => (kv.1, kv.2.score) } }

/-- The port field of the `EngineCall` the handler passes to the audit
engine, or `none` when the handler errors before invoking the engine. -/
def enginePortOf (params : RawInput) (launchArgs : Option (List String))
    (now : Nat) (cwd : String) : Option (Option Int) :=
  match prepareAudit params launchArgs now cwd with
  | .error _ => none
  | .ok (_, call) => some call.port

/-! ## Decimal representation: `Nat.repr` is injective

`reportFileBase` embeds the clock value with `toString`, which is
`Nat.repr`; to relate distinct clock values to distinct filenames we prove
that the decimal rendering is injective, via a round-trip through a digit
evaluator. -/

/-- Evaluating a most-significant-first list of decimal digit characters. -/
def ofDecimalDigits (l : List Char) : Nat :=
  l.foldl (fun a c => a * 10 + (c.toNat - 48)) 0

theorem toDigitsCore_append (b : Nat) :
    ∀ (f n : Nat) (ds : List Char),
      Nat.toDigitsCore b f n ds = Nat.toDigitsCore b f n [] ++ ds := by
  intro f
  induction f with
  | zero => intro n ds; simp [Nat.toDigitsCore]
  | succ f ih =>
    intro n ds
    simp only [Nat.toDigitsCore]
    by_cases h : n / b = 0
    · simp [h]
    · simp only [h, if_false]
      rw [ih (n / b) (Nat.digitChar (n % b) :: ds), ih (n / b) [Nat.digitChar (n % b)]]
      simp

theorem toDigitsCore_fuel_irrel (b : Nat) (hb : 2 ≤ b) :
    ∀ (n f f' : Nat), n < f → n < f' →
      Nat.toDigitsCore b f n [] = Nat.toDigitsCore b f' n [] := by
  intro n
  induction n using Nat.strong_induction_on with
  | _ n ih =>
    intro f f' hf hf'
    cases f with
    | zero => exact absurd hf (Nat.not_lt_zero n)
    | succ g =>
    cases f' with
    | zero => exact absurd hf' (Nat.not_lt_zero n)
    | succ g' =>
    simp only [Nat.toDigitsCore]
    by_cases h : n / b = 0
    · simp [h]
    · simp only [h, if_false]
      have hn : 0 < n := by
        rcases Nat.eq_zero_or_pos n with h0 | h0
        · exact absurd (by simp [h0]) h
        · exact h0
      have hdiv : n / b < n := Nat.div_lt_self hn (by omega)
      rw [toDigitsCore_append b g, toDigitsCore_append b g']
      rw [ih (n / b) hdiv g g' (by omega) (by omega)]

theorem digitChar_toNat {d : Nat} (hd : d < 10) : (Nat.digitChar d).toNat = 48 + d := by
  interval_cases d <;> rfl

theorem ofDecimalDigits_toDigits (n : Nat) : ofDecimalDigits (Nat.toDigits 10 n) = n := by
  induction n using Nat.strong_induction_on with
  | _ n ih =>
    show ofDecimalDigits (Nat.toDigitsCore 10 (n + 1) n []) = n
    simp only [Nat.toDigitsCore]
    by_cases h : n / 10 = 0
    · have hn : n < 10 := by omega
      have : n % 10 = n := Nat.mod_eq_of_lt hn
      simp [h, this, ofDecimalDigits, digitChar_toNat hn]
    · simp only [h, if_false]
      have hn : 0 < n := by
        rcases Nat.eq_zero_or_pos n with h0 | h0
        · exact absurd (by simp [h0]) h
        · exact h0
      have hdiv : n / 10 < n := Nat.div_lt_self hn (by omega)
      rw [toDigitsCore_append 10 n]
      rw [toDigitsCore_fuel_irrel 10 (by omega) (n / 10) n (n / 10 + 1) (by omega) (by omega)]
      have hrec : ofDecimalDigits (Nat.toDigitsCore 10 (n / 10 + 1) (n / 10) []) = n / 10 :=
        ih (n / 10) hdiv
      have hmod : n % 10 < 10 := Nat.mod_lt n (by omega)
      have hfold :
          ofDecimalDigits
              (Nat.toDigitsCore 10 (n / 10 + 1) (n / 10) [] ++ [Nat.digitChar (n % 10)]) =
            ofDecimalDigits (Nat.toDigitsCore 10 (n / 10 + 1) (n / 10) []) * 10 +
              ((Nat.digitChar (n % 10)).toNat - 48) := by
        simp [ofDecimalDigits, List.foldl_append]
      rw [hfold, hrec, digitChar_toNat hmod]
      have := Nat.div_add_mod n 10
      omega

theorem natRepr_injective {m n : Nat} (h : Nat.repr m = Nat.repr n) : m = n := by
  have hdig : Nat.toDigits 10 m = Nat.toDigits 10 n := by
    have : (Nat.toDigits 10 m).asString = (Nat.toDigits 10 n).asString := h
    exact congrArg String.data this
  calc m = ofDecimalDigits (Nat.toDigits 10 m) := (ofDecimalDigits_toDigits m).symm
    _ = ofDecimalDigits (Nat.toDigits 10 n) := by rw [hdig]
    _ = n := ofDecimalDigits_toDigits n

theorem reportFileBase_injective {t₁ t₂ : Nat}
    (h : reportFileBase t₁ = reportFileBase t₂) : t₁ = t₂ := by
  apply natRepr_injective (m := t₁) (n := t₂)
  have hdata : ("lighthouse-" ++ toString t₁).data = ("lighthouse-" ++ toString t₂).data :=
    congrArg String.data h
  rw [String.data_append, String.data_append] at hdata
  have : (toString t₁).data = (toString t₂).data := List.append_cancel_left hdata
  show toString t₁ = toString t₂
  exact String.ext this

example : parseParams ⟨none, none, none, none⟩ =
    some ⟨[Category.accessibility], FormFactor.desktop, OutputFormat.html, none⟩ := by decide

example : resolvePort (some ["--headless", "--remote-debugging-port=9222"]) = some "9222" := by
  decide

example : resolvePort (some ["--headless"]) = none := by decide

example : resolvePort (some ["--remote-debugging-port="]) = some "" := by decide

example : parseIntJS "9222" = some 9222 := by decide

example : parseIntJS "xyz" = none := by decide

example : enginePortOf ⟨none, none, none, none⟩ (some ["--remote-debugging-port=9222"]) 5 "/w" =
    some (some 9222) := by decide

/-! ## Helper lemmas -/

theorem parseCategories_eq_none {ss : List String} {s : String} (hmem : s ∈ ss)
    (hbad : parseCategory s = none) : parseCategories ss = none := by
  induction ss with
  | nil => cases hmem
  | cons a rest ih =>
    rcases List.mem_cons.mp hmem with rfl | hmem'
    · simp [parseCategories, hbad]
    · cases h1 : parseCategory a <;> simp [parseCategories, h1, ih hmem']

/-- C3: a valid input that omits categories, formFactor, output and
thresholds parses to the declared defaults: categories = [accessibility],
formFactor = desktop, output = html, thresholds absent. -/
theorem c3_omitted_fields_get_defaults (params : RawInput)
    (h1 : params.categories = none) (h2 : params.formFactor = none)
    (h3 : params.output = none) (h4 : params.thresholds = none) :
    parseParams params =
      some { categories := [Category.accessibility]
             formFactor := FormFactor.desktop
             output := OutputFormat.html
             thresholds := none } := by
  simp [parseParams, parseCategoriesField, parseFormFactorField, parseOutputField,
    h1, h2, h3, h4]

/-- Witness for C3 at the input with all four fields absent. -/
theorem c3_omitted_fields_get_defaults_witness :
    parseParams ⟨none, none, none, none⟩ =
      some { categories := [Category.accessibility]
             formFactor := FormFactor.desktop
             output := OutputFormat.html
             thresholds := none } :=
  c3_omitted_fields_get_defaults ⟨none, none, none, none⟩ rfl rfl rfl rfl

/-- C4: an input with a categories element, formFactor value, or output
value outside its enumerated domain fails validation, and the handler
returns the validation error without consulting the audit engine (the
result is the same for every engine). -/
theorem c4_invalid_enum_rejected (captureSnapshot : Bool) (params : RawInput)
    (launchArgs : Option (List String)) (now : Nat) (cwd : String)
    (engine : EngineCall → AuditOutcome)
    (hbad : (∃ ss s, params.categories = some ss ∧ s ∈ ss ∧ parseCategory s = none) ∨
            (∃ s, params.formFactor = some s ∧ parseFormFactor s = none) ∨
            (∃ s, params.output = some s ∧ parseOutputFormat s = none)) :
    parseParams params = none ∧
      handle captureSnapshot params launchArgs now cwd engine =
        .error HandlerError.validationError := by
  have hparse : parseParams params = none := by
    rcases hbad with ⟨ss, s, hss, hmem, hcat⟩ | ⟨s, hff, hf⟩ | ⟨s, hout, ho⟩
    · simp [parseParams, parseCategoriesField, hss, parseCategories_eq_none hmem hcat]
    · cases h1 : parseCategoriesField params.categories <;>
        simp [parseParams, h1, parseFormFactorField, hff, hf]
    · cases h1 : parseCategoriesField params.categories <;>
        cases h2 : parseFormFactorField params.formFactor <;>
          simp [parseParams, h1, h2, parseOutputField, hout, ho]
  exact ⟨hparse, by simp [handle, prepareAudit, hparse]⟩

/-- Witness for C4 at an input whose output value "pdf" is outside the
enumerated domain. -/
theorem c4_invalid_enum_rejected_witness :
    parseParams ⟨none, none, some "pdf", none⟩ = none ∧
      handle false ⟨none, none, some "pdf", none⟩ (some ["--remote-debugging-port=9222"])
          0 "/w" (fun _ => ⟨[]⟩) =
        .error HandlerError.validationError :=
  c4_invalid_enum_rejected false ⟨none, none, some "pdf", none⟩
    (some ["--remote-debugging-port=9222"]) 0 "/w" (fun _ => ⟨[]⟩)
    (Or.inr (Or.inr ⟨"pdf", rfl, rfl⟩))

/-- C1 counterexample: the input whose thresholds map accessibility to 150
(outside [0,100]) passes validation, and with a usable port the handler
reaches the audit engine and succeeds — the claim's "validation fails and
no audit engine invocation occurs" is false at this input. -/
theorem c1_counterexample :
    ((100 : ℚ) < 150) ∧
      (parseParams ⟨none, none, none, some [("accessibility", (150 : ℚ))]⟩).isSome = true ∧
      enginePortOf ⟨none, none, none, some [("accessibility", (150 : ℚ))]⟩
          (some ["--remote-debugging-port=9222"]) 0 "/w" = some (some 9222) ∧
      (handle false ⟨none, none, none, some [("accessibility", (150 : ℚ))]⟩
          (some ["--remote-debugging-port=9222"]) 0 "/w" (fun _ => ⟨[]⟩)).isOk = true :=
  ⟨by decide, by decide, by decide, by decide⟩

/-- C1 amended: parameter validation never inspects the thresholds mapping.
Whenever a request with thresholds `th` parses, the accepted request
carries `th` verbatim (no [0,100] range check), and replacing `th` by any
other mapping `th'` still parses. -/
theorem c1_thresholds_not_range_checked (params : RawInput)
    (th th' : Option ThresholdMap) (opts : AuditRequest)
    (h : parseParams { params with thresholds := th } = some opts) :
    opts.thresholds = th ∧
      (parseParams { params with thresholds := th' }).isSome = true := by
  cases h1 : parseCategoriesField params.categories with
  | none => simp [parseParams, h1] at h
  | some cats =>
    cases h2 : parseFormFactorField params.formFactor with
    | none => simp [parseParams, h1, h2] at h
    | some ff =>
      cases h3 : parseOutputField params.output with
      | none => simp [parseParams, h1, h2, h3] at h
      | some out =>
        have hopts : opts =
            { categories := cats, formFactor := ff, output := out, thresholds := th } := by
          simp [parseParams, h1, h2, h3] at h
          exact h.symm
        subst hopts
        exact ⟨rfl, by simp [parseParams, h1, h2, h3]⟩

/-- Witness for C1's amended theorem: thresholds {accessibility ↦ 150} is
accepted verbatim and swapping it for {performance ↦ -5} still parses. -/
theorem c1_thresholds_not_range_checked_witness :
    ({ categories := [Category.accessibility]
       formFactor := FormFactor.desktop
       output := OutputFormat.html
       thresholds := some [("accessibility", (150 : ℚ))] } : AuditRequest).thresholds =
        some [("accessibility", (150 : ℚ))] ∧
      (parseParams ⟨none, none, none, some [("performance", (-5 : ℚ))]⟩).isSome = true :=
  c1_thresholds_not_range_checked ⟨none, none, none, none⟩
    (some [("accessibility", (150 : ℚ))]) (some [("performance", (-5 : ℚ))]) _ rfl

/-- C2 counterexample: the report base filename is derived from the clock
value alone, so two invocations observing the same millisecond produce the
same — not distinct — base name; the claimed clock-independent uniqueness
is false. -/
theorem c2_counterexample :
    reportFileBase 1700000000000 = "lighthouse-1700000000000" ∧
      reportFileBase 1700000000000 = reportFileBase 1700000000000 :=
  ⟨rfl, rfl⟩

/-- C2 amended: base filenames are distinct exactly when the observed
millisecond clock values are distinct — uniqueness relies on the clock
values differing. -/
theorem c2_distinct_clocks_distinct_names (t₁ t₂ : Nat) (h : t₁ ≠ t₂) :
    reportFileBase t₁ ≠ reportFileBase t₂ :=
  fun hc => h (reportFileBase_injective hc)

/-- Witness for C2's amended theorem at clock values 1 and 2. -/
theorem c2_distinct_clocks_distinct_names_witness :
    reportFileBase 1 ≠ reportFileBase 2 :=
  c2_distinct_clocks_distinct_names 1 2 (by decide)

/-- C5: when no launch argument starts with `--remote-debugging-port=`, the
handler fails with the configuration error instructing the operator to
relaunch with that flag, for every audit engine (so the engine is never
invoked). -/
theorem c5_missing_port_flag_config_error (captureSnapshot : Bool) (params : RawInput)
    (args : List String) (now : Nat) (cwd : String) (engine : EngineCall → AuditOutcome)
    (hvalid : (parseParams params).isSome = true)
    (hnone : ∀ a ∈ args, jsStartsWith a remoteDebugFlag = false) :
    handle captureSnapshot params (some args) now cwd engine =
      .error (HandlerError.configurationError portErrorMessage) := by
  obtain ⟨opts, hopts⟩ := Option.isSome_iff_exists.mp hvalid
  have hfind : args.find? (fun a => jsStartsWith a remoteDebugFlag) = none :=
    List.find?_eq_none.mpr fun x hx => by simp [hnone x hx]
  simp [handle, prepareAudit, hopts, resolvePort, hfind]

/-- Witness for C5 with a single non-matching launch argument. -/
theorem c5_missing_port_flag_config_error_witness :
    handle false ⟨none, none, none, none⟩ (some ["--headless"]) 0 "/w" (fun _ => ⟨[]⟩) =
      .error (HandlerError.configurationError portErrorMessage) :=
  c5_missing_port_flag_config_error false ⟨none, none, none, none⟩ ["--headless"] 0 "/w"
    (fun _ => ⟨[]⟩) (by decide) (by decide)

/-- C9: when the first matching launch argument is the bare
`--remote-debugging-port=` (empty value), the handler raises exactly the
configuration error of the flag-absent case — the same result as with no
launch arguments at all — for every audit engine. -/
theorem c9_empty_port_value_config_error (captureSnapshot : Bool) (params : RawInput)
    (args : List String) (now : Nat) (cwd : String) (engine : EngineCall → AuditOutcome)
    (hvalid : (parseParams params).isSome = true)
    (hfind : args.find? (fun a => jsStartsWith a remoteDebugFlag) =
      some "--remote-debugging-port=") :
    handle captureSnapshot params (some args) now cwd engine =
        .error (HandlerError.configurationError portErrorMessage) ∧
      handle captureSnapshot params (some args) now cwd engine =
        handle captureSnapshot params none now cwd engine := by
  obtain ⟨opts, hopts⟩ := Option.isSome_iff_exists.mp hvalid
  have hres : resolvePort (some args) = some "" := by
    simp only [resolvePort, hfind]
    decide
  have hlhs : handle captureSnapshot params (some args) now cwd engine =
      .error (HandlerError.configurationError portErrorMessage) := by
    simp [handle, prepareAudit, hopts, hres]
  have hrhs : handle captureSnapshot params none now cwd engine =
      .error (HandlerError.configurationError portErrorMessage) := by
    simp [handle, prepareAudit, hopts, resolvePort]
  exact ⟨hlhs, hlhs.trans hrhs.symm⟩

/-- Witness for C9 with the bare flag as the only launch argument. -/
theorem c9_empty_port_value_config_error_witness :
    handle false ⟨none, none, none, none⟩ (some ["--remote-debugging-port="]) 0 "/w"
          (fun _ => ⟨[]⟩) =
        .error (HandlerError.configurationError portErrorMessage) ∧
      handle false ⟨none, none, none, none⟩ (some ["--remote-debugging-port="]) 0 "/w"
          (fun _ => ⟨[]⟩) =
        handle false ⟨none, none, none, none⟩ none 0 "/w" (fun _ => ⟨[]⟩) :=
  c9_empty_port_value_config_error false ⟨none, none, none, none⟩
    ["--remote-debugging-port="] 0 "/w" (fun _ => ⟨[]⟩) (by decide) (by decide)

/-- C6 counterexample: the launch-argument list
`["--remote-debugging-port=1234", "--remote-debugging-port=9222"]` contains
`--remote-debugging-port=9222`, yet the port passed to the audit engine is
1234, not 9222: `find` takes the first matching argument, so the resolved
port is not independent of the other arguments' content. -/
theorem c6_counterexample :
    (["--remote-debugging-port=1234", "--remote-debugging-port=9222"].contains
        "--remote-debugging-port=9222") = true ∧
      enginePortOf ⟨none, none, none, none⟩
          (some ["--remote-debugging-port=1234", "--remote-debugging-port=9222"]) 0 "/w" =
        some (some 1234) ∧
      (1234 : Int) ≠ 9222 :=
  ⟨by decide, by decide, by decide⟩

/-- C6 amended: whenever the first launch argument starting with
`--remote-debugging-port=` is exactly `--remote-debugging-port=9222`, the
port passed to the audit engine is the integer 9222, regardless of the
order or content of the other arguments. -/
theorem c6_first_port_flag_wins (params : RawInput) (args : List String)
    (now : Nat) (cwd : String)
    (hvalid : (parseParams params).isSome = true)
    (hfind : args.find? (fun a => jsStartsWith a remoteDebugFlag) =
      some "--remote-debugging-port=9222") :
    enginePortOf params (some args) now cwd = some (some 9222) := by
  obtain ⟨opts, hopts⟩ := Option.isSome_iff_exists.mp hvalid
  have hres : resolvePort (some args) = some "9222" := by
    simp only [resolvePort, hfind]
    decide
  simp only [enginePortOf, prepareAudit, hopts, hres,
    if_neg (show ¬("9222" = "") by decide)]
  decide

/-- Witness for C6's amended theorem: the 9222 flag is the first match
among unrelated arguments. -/
theorem c6_first_port_flag_wins_witness :
    enginePortOf ⟨none, none, none, none⟩
        (some ["--headless", "--remote-debugging-port=9222", "--window-size=3"]) 0 "/w" =
      some (some 9222) :=
  c6_first_port_flag_wins ⟨none, none, none, none⟩
    ["--headless", "--remote-debugging-port=9222", "--window-size=3"] 0 "/w"
    (by decide) (by decide)

/-- Inversion of a successful `prepareAudit`: the resolved port string and
the exact engine-call object, in terms of the parsed request. -/
theorem prepareAudit_ok_inv (params : RawInput) (launchArgs : Option (List String))
    (now : Nat) (cwd : String) (p : String) (call : EngineCall) (opts : AuditRequest)
    (hopts : parseParams params = some opts)
    (hprep : prepareAudit params launchArgs now cwd = .ok (p, call)) :
    resolvePort launchArgs = some p ∧ p ≠ "" ∧
      call = { port := parseIntJS p
               thresholds := opts.thresholds
               logLevel := "error"
               formatsHtml := opts.output == OutputFormat.html
               formatsJson := opts.output == OutputFormat.json
               reportName := reportFileBase now
               reportDirectory := pathJoin cwd "lighthouse-reports" } := by
  unfold prepareAudit at hprep
  rw [hopts] at hprep
  dsimp only at hprep
  split at hprep
  · cases hprep
  · rename_i q hres
    split at hprep
    · cases hprep
    · rename_i hq
      injection hprep with hpair
      have h1 : q = p := congrArg Prod.fst hpair
      have h2 : call = _ := (congrArg Prod.snd hpair).symm
      subst h1
      exact ⟨hres, hq, h2⟩

/-- The report path produced by the handler, rewritten as the flat
`<cwd>/lighthouse-reports/lighthouse-<epoch-ms><ext>` form. -/
theorem reportPath_eq (cwd : String) (now : Nat) (ext : String) :
    pathJoin (pathJoin cwd "lighthouse-reports") (reportFileBase now ++ ext) =
      cwd ++ "/lighthouse-reports/lighthouse-" ++ toString now ++ ext := by
  unfold pathJoin reportFileBase
  simp only [String.append_assoc]
  congr 1

/-- C7: every successful invocation yields exactly one file descriptor:
for output=html a single `text/html` entry at
`<cwd>/lighthouse-reports/lighthouse-<epoch-ms>.html`, and for output=json
a single `application/json` entry with the `.json` extension of the same
base name. -/
theorem c7_single_file_descriptor (captureSnapshot : Bool) (params : RawInput)
    (launchArgs : Option (List String)) (now : Nat) (cwd : String)
    (engine : EngineCall → AuditOutcome) (opts : AuditRequest) (r : AuditResponse)
    (hopts : parseParams params = some opts)
    (hok : handle captureSnapshot params launchArgs now cwd engine = .ok r) :
    (opts.output = OutputFormat.html →
        r.files = [{ path := cwd ++ "/lighthouse-reports/lighthouse-" ++ toString now ++ ".html"
                     mediaType := "text/html" }]) ∧
      (opts.output = OutputFormat.json →
        r.files = [{ path := cwd ++ "/lighthouse-reports/lighthouse-" ++ toString now ++ ".json"
                     mediaType := "application/json" }]) := by
  unfold handle at hok
  cases hprep : prepareAudit params launchArgs now cwd with
  | error e => rw [hprep] at hok; cases hok
  | ok pc =>
    obtain ⟨p, call⟩ := pc
    rw [hprep] at hok
    dsimp only at hok
    obtain ⟨-, -, hcall⟩ :=
      prepareAudit_ok_inv params launchArgs now cwd p call opts hopts hprep
    injection hok with hr
    subst hcall
    constructor
    · intro hout
      rw [← hr, hout]
      simp [reportPath_eq, show (OutputFormat.html == OutputFormat.json) = false by decide]
    · intro hout
      rw [← hr, hout]
      simp [reportPath_eq, show (OutputFormat.json == OutputFormat.html) = false by decide]

/-- Witness for C7 at a concrete html-output invocation. -/
theorem c7_single_file_descriptor_witness :
    (({ categories := [Category.accessibility], formFactor := FormFactor.desktop,
        output := OutputFormat.html, thresholds := none } : AuditRequest).output =
          OutputFormat.html →
        ({ code := ["// Lighthouse audit via playwright-lighthouse",
                    "await playAudit(\x7b page, port: 9222, /* ... */ \x7d);"]
           files := [{ path := "/w/lighthouse-reports/lighthouse-7.html"
                       mediaType := "text/html" }]
           captureSnapshot := false
           waitForNetwork := false
           data := { scores := [] } } : AuditResponse).files =
          [{ path := "/w" ++ "/lighthouse-reports/lighthouse-" ++ toString 7 ++ ".html"
             mediaType := "text/html" }]) ∧
      (({ categories := [Category.accessibility], formFactor := FormFactor.desktop,
          output := OutputFormat.html, thresholds := none } : AuditRequest).output =
            OutputFormat.json →
        ({ code := ["// Lighthouse audit via playwright-lighthouse",
                    "await playAudit(\x7b page, port: 9222, /* ... */ \x7d);"]
           files := [{ path := "/w/lighthouse-reports/lighthouse-7.html"
                       mediaType := "text/html" }]
           captureSnapshot := false
           waitForNetwork := false
           data := { scores := [] } } : AuditResponse).files =
          [{ path := "/w" ++ "/lighthouse-reports/lighthouse-" ++ toString 7 ++ ".json"
             mediaType := "application/json" }]) :=
  c7_single_file_descriptor false ⟨none, none, none, none⟩
    (some ["--remote-debugging-port=9222"]) 7 "/w" (fun _ => ⟨[]⟩)
    { categories := [Category.accessibility], formFactor := FormFactor.desktop,
      output := OutputFormat.html, thresholds := none }
    { code := ["// Lighthouse audit via playwright-lighthouse",
               "await playAudit(\x7b page, port: 9222, /* ... */ \x7d);"]
      files := [{ path := "/w/lighthouse-reports/lighthouse-7.html"
                  mediaType := "text/html" }]
      captureSnapshot := false
      waitForNetwork := false
      data := { scores := [] } }
    (by decide) (by rfl)

/-- C8: on every successful invocation, `data.scores` is the engine
result's category list with each record replaced by its raw score: the keys
are exactly the categories present in the result and each score is passed
through unmodified. -/
theorem c8_scores_passthrough (captureSnapshot : Bool) (params : RawInput)
    (launchArgs : Option (List String)) (now : Nat) (cwd : String)
    (engine : EngineCall → AuditOutcome) (p : String) (call : EngineCall) (r : AuditResponse)
    (hprep : prepareAudit params launchArgs now cwd = .ok (p, call))
    (hok : handle captureSnapshot params launchArgs now cwd engine = .ok r) :
    r.data.scores = (engine call).categories.map (fun kv => (kv.1, kv.2.score)) ∧
      r.data.scores.map (fun kv => kv.1) = (engine call).categories.map (fun kv => kv.1) := by
  unfold handle at hok
  rw [hprep] at hok
  dsimp only at hok
  injection hok with hr
  rw [← hr]
  exact ⟨rfl, by simp⟩

/-- Witness for C8 at a concrete engine result with two categories. -/
theorem c8_scores_passthrough_witness :
    ({ code := ["// Lighthouse audit via playwright-lighthouse",
                "await playAudit(\x7b page, port: 9222, /* ... */ \x7d);"]
       files := [{ path := "/w/lighthouse-reports/lighthouse-7.html"
                   mediaType := "text/html" }]
       captureSnapshot := false
       waitForNetwork := false
       data := { scores := [("accessibility", (1 : ℚ)), ("seo", (0 : ℚ))] } } :
          AuditResponse).data.scores =
        ((fun _ : EngineCall =>
            ({ categories := [("accessibility", ⟨(1 : ℚ)⟩), ("seo", ⟨(0 : ℚ)⟩)] } :
              AuditOutcome))
          { port := some 9222, thresholds := none, logLevel := "error", formatsHtml := true,
            formatsJson := false, reportName := "lighthouse-7",
            reportDirectory := "/w/lighthouse-reports" }).categories.map
          (fun kv => (kv.1, kv.2.score)) ∧
      (({ code := ["// Lighthouse audit via playwright-lighthouse",
                   "await playAudit(\x7b page, port: 9222, /* ... */ \x7d);"]
          files := [{ path := "/w/lighthouse-reports/lighthouse-7.html"
                      mediaType := "text/html" }]
          captureSnapshot := false
          waitForNetwork := false
          data := { scores := [("accessibility", (1 : ℚ)), ("seo", (0 : ℚ))] } } :
            AuditResponse).data.scores.map (fun kv => kv.1)) =
        ((fun _ : EngineCall =>
            ({ categories := [("accessibility", ⟨(1 : ℚ)⟩), ("seo", ⟨(0 : ℚ)⟩)] } :
              AuditOutcome))
          { port := some 9222, thresholds := none, logLevel := "error", formatsHtml := true,
            formatsJson := false, reportName := "lighthouse-7",
            reportDirectory := "/w/lighthouse-reports" }).categories.map (fun kv => kv.1) :=
  c8_scores_passthrough false ⟨none, none, none, none⟩
    (some ["--remote-debugging-port=9222"]) 7 "/w"
    (fun _ =>
      ({ categories := [("accessibility", ⟨(1 : ℚ)⟩), ("seo", ⟨(0 : ℚ)⟩)] } : AuditOutcome))
    "9222"
    { port := some 9222, thresholds := none, logLevel := "error", formatsHtml := true,
      formatsJson := false, reportName := "lighthouse-7",
      reportDirectory := "/w/lighthouse-reports" }
    { code := ["// Lighthouse audit via playwright-lighthouse",
               "await playAudit(\x7b page, port: 9222, /* ... */ \x7d);"]
      files := [{ path := "/w/lighthouse-reports/lighthouse-7.html"
                  mediaType := "text/html" }]
      captureSnapshot := false
      waitForNetwork := false
      data := { scores := [("accessibility", (1 : ℚ)), ("seo", (0 : ℚ))] } }
    (by rfl) (by rfl)

/-- C10: with the launch argument `--remote-debugging-port=xyz` (non-empty,
non-numeric value), the handler raises no configuration error: `parseInt`
yields `NaN` (modelled `none`) and the audit engine is invoked with that
non-numeric port — the guard checks only absence or emptiness of the
value. -/
theorem c10_nonnumeric_port_reaches_engine :
    parseIntJS "xyz" = none ∧
      enginePortOf ⟨none, none, none, none⟩ (some ["--remote-debugging-port=xyz"]) 0 "/w" =
        some none ∧
      (handle false ⟨none, none, none, none⟩ (some ["--remote-debugging-port=xyz"]) 0 "/w"
          (fun _ => ⟨[]⟩)).isOk = true :=
  ⟨by decide, by decide, by decide⟩
